import Mathlib

/-!
Shallow embedding of the CDistNet transformer core
(src/model/modules/transformer.py): ScaledDotProductAttention,
MultiHeadAttention, PositionwiseFeedForward, EncoderLayer and
TransformerUnit.

Tensors are modelled as total entry functions over natural-number indices
together with explicit dimension fields; every tensor operation records the
shape arithmetic of the corresponding torch call.  Dropout is modelled with
an explicit training flag and an explicit noise source (the random mask the
framework draws); in eval mode (training = false) dropout is the identity,
exactly as nn.Dropout.  torch.masked_fill raises a runtime error when the
mask is not broadcast-compatible with the scores tensor; that fallibility is
modelled by an Option result.  Only the broadcast fragment reachable in this
file is modelled: a mask whose trailing two dimensions match the scores and
whose leading dimension is either 1 (broadcast across the batch axis) or
equal to the scores' leading dimension.
-/

noncomputable section

/-- A rank-3 tensor: explicit shape plus a total entry function. -/
structure Tensor3 where
  dim0 : ℕ
  dim1 : ℕ
  dim2 : ℕ
  data : ℕ → ℕ → ℕ → ℝ

/-- A rank-4 tensor, used for the intermediate head-split views. -/
structure Tensor4 where
  dim0 : ℕ
  dim1 : ℕ
  dim2 : ℕ
  dim3 : ℕ
  data : ℕ → ℕ → ℕ → ℕ → ℝ

/-- A rank-3 boolean mask tensor. -/
structure Mask3 where
  dim0 : ℕ
  dim1 : ℕ
  dim2 : ℕ
  data : ℕ → ℕ → ℕ → Bool

/-- The shape triple of a rank-3 tensor. -/
def Tensor3.dims (t : Tensor3) : ℕ × ℕ × ℕ := (t.dim0, t.dim1, t.dim2)

/-- torch: x.transpose(1, 2). -/
def transpose12 (t : Tensor3) : Tensor3 :=
  ⟨t.dim0, t.dim2, t.dim1, fun b i j => t.data b j i⟩

/-- torch.bmm: batched matrix multiply, (B, n, m) x (B, m, p) -> (B, n, p). -/
def bmm (x y : Tensor3) : Tensor3 :=
  ⟨x.dim0, x.dim1, y.dim2, fun b i j =>
    ∑ l ∈ Finset.range x.dim2, x.data b i l * y.data b l j⟩

/-- Division of every entry by a scalar (attn / self.temperature). -/
def scalarDiv (t : Tensor3) (c : ℝ) : Tensor3 :=
  ⟨t.dim0, t.dim1, t.dim2, fun b i j => t.data b i j / c⟩

/-- Elementwise addition (the residual connections); both operands have the
same shape wherever this is applied within the spec's preconditions. -/
def addT (x y : Tensor3) : Tensor3 :=
  ⟨x.dim0, x.dim1, x.dim2, fun b i j => x.data b i j + y.data b i j⟩

/-- F.relu. -/
def reluT (t : Tensor3) : Tensor3 :=
  ⟨t.dim0, t.dim1, t.dim2, fun b i j => max 0 (t.data b i j)⟩

/-- torch masked_fill(mask, c): entries where the mask is true are replaced
by c.  A mask leading dimension of size 1 broadcasts across the batch axis
(index taken modulo the mask's leading dimension, which is the identity when
the dimensions agree and constant 0 when the mask dimension is 1). -/
def maskedFill (t : Tensor3) (m : Mask3) (c : ℝ) : Tensor3 :=
  ⟨t.dim0, t.dim1, t.dim2, fun b i j =>
    cond (m.data (b % m.dim0) i j) c (t.data b i j)⟩

/-- Broadcast compatibility of a mask with a scores tensor, for the fragment
of torch broadcasting reachable in this file: trailing dimensions equal,
leading dimension 1 or equal.  masked_fill raises otherwise. -/
def broadcastOk (m : Mask3) (t : Tensor3) : Bool :=
  ((m.dim0 == 1 || m.dim0 == t.dim0) && m.dim1 == t.dim1) && m.dim2 == t.dim2

/-- nn.Softmax(dim=2): rows along the last axis are normalized by the sum of
exponentials over that axis. -/
def softmax2 (t : Tensor3) : Tensor3 :=
  ⟨t.dim0, t.dim1, t.dim2, fun b i j =>
    Real.exp (t.data b i j) / ∑ l ∈ Finset.range t.dim2, Real.exp (t.data b i l)⟩

/-- The random zeroing pattern a dropout call draws (one Bool per entry). -/
abbrev Noise := ℕ → ℕ → ℕ → Bool

/-- nn.Dropout(p): in training mode each entry is zeroed where the drawn
noise says so and the rest are rescaled by 1/(1-p); in eval mode
(training = false) it is the identity.  The shape is unchanged in both
modes. -/
def dropoutForward (p : ℝ) (training : Bool) (noise : Noise) (t : Tensor3) :
    Tensor3 :=
  ⟨t.dim0, t.dim1, t.dim2, fun b i j =>
    cond training (cond (noise b i j) 0 (t.data b i j / (1 - p)))
      (t.data b i j)⟩

/-- nn.Linear(in_features, out_features) parameters: y = x Wᵀ + b. -/
structure LinearP where
  out_features : ℕ
  in_features : ℕ
  weight : ℕ → ℕ → ℝ
  bias : ℕ → ℝ

/-- nn.Linear forward on a (B, L, in_features) tensor. -/
def linearForward (p : LinearP) (t : Tensor3) : Tensor3 :=
  ⟨t.dim0, t.dim1, p.out_features, fun b i o =>
    (∑ j ∈ Finset.range t.dim2, t.data b i j * p.weight o j) + p.bias o⟩

/-- nn.Conv1d(in_channels, out_channels, 1) parameters (kernel size 1). -/
structure Conv1dP where
  out_channels : ℕ
  in_channels : ℕ
  weight : ℕ → ℕ → ℝ
  bias : ℕ → ℝ

/-- Kernel-size-1 Conv1d on a (B, C, L) tensor: an independent linear map at
every sequence position. -/
def conv1dK1 (p : Conv1dP) (t : Tensor3) : Tensor3 :=
  ⟨t.dim0, p.out_channels, t.dim2, fun b o l =>
    (∑ i ∈ Finset.range t.dim1, p.weight o i * t.data b i l) + p.bias o⟩

/-- nn.LayerNorm parameters (learned elementwise affine plus eps). -/
structure LayerNormP where
  gamma : ℕ → ℝ
  beta : ℕ → ℝ
  eps : ℝ

/-- nn.LayerNorm over the last axis: per-(b, i) mean and biased variance
along dim2, normalize, then apply the learned affine map. -/
def layerNormForward (p : LayerNormP) (t : Tensor3) : Tensor3 :=
  ⟨t.dim0, t.dim1, t.dim2, fun b i j =>
    let mu := (∑ l ∈ Finset.range t.dim2, t.data b i l) / t.dim2
    let v := (∑ l ∈ Finset.range t.dim2, (t.data b i l - mu) ^ 2) / t.dim2
    p.gamma j * ((t.data b i j - mu) / Real.sqrt (v + p.eps)) + p.beta j⟩

/-- q.view(sz_b, len_q, n_head, d_k): split the last axis of a
(B, L, H*d) tensor into (H, d). -/
def splitLast3 (t : Tensor3) (h d : ℕ) : Tensor4 :=
  ⟨t.dim0, t.dim1, h, d, fun b l i x => t.data b l (i * d + x)⟩

/-- x.permute(2, 0, 1, 3). -/
def permute2013 (t : Tensor4) : Tensor4 :=
  ⟨t.dim2, t.dim0, t.dim1, t.dim3, fun a b c d => t.data b c a d⟩

/-- x.contiguous().view(-1, len, d): merge the first two axes. -/
def mergeFirst2 (t : Tensor4) : Tensor3 :=
  ⟨t.dim0 * t.dim1, t.dim2, t.dim3, fun n l x =>
    t.data (n / t.dim1) (n % t.dim1) l x⟩

/-- output.view(n_head, sz_b, len_q, d_v): split the first axis of a
(H*B, L, d) tensor into (H, B). -/
def splitFirst3 (t : Tensor3) (h b : ℕ) : Tensor4 :=
  ⟨h, b, t.dim1, t.dim2, fun i bb l x => t.data (i * b + bb) l x⟩

/-- x.permute(1, 2, 0, 3). -/
def permute1203 (t : Tensor4) : Tensor4 :=
  ⟨t.dim1, t.dim2, t.dim0, t.dim3, fun b l i x => t.data i b l x⟩

/-- x.contiguous().view(sz_b, len_q, -1): merge the last two axes. -/
def mergeLast2 (t : Tensor4) : Tensor3 :=
  ⟨t.dim0, t.dim1, t.dim2 * t.dim3, fun b l y =>
    t.data b l (y / t.dim3) (y % t.dim3)⟩

/-- Lines 74-79: view to (B, L, H, d), permute(2,0,1,3), view(-1, L, d). -/
def headSplit (t : Tensor3) (h d : ℕ) : Tensor3 :=
  mergeFirst2 (permute2013 (splitLast3 t h d))

/-- Lines 81-82: view(H, B, L, d), permute(1,2,0,3), view(B, L, -1). -/
def headMerge (t : Tensor3) (h b : ℕ) : Tensor3 :=
  mergeLast2 (permute1203 (splitFirst3 t h b))

/-- Line 42: the fill constant -1e9 used for masked positions. -/
def maskFillValue : ℝ := -1e9

/-- ScaledDotProductAttention constructor state (__init__, lines 32-36). -/
structure ScaledDotProductAttentionP where
  d_k : ℕ
  attn_dropout : ℝ

/-- self.temperature = np.power(d_k, 0.5). -/
def ScaledDotProductAttentionP.temperature
    (p : ScaledDotProductAttentionP) : ℝ :=
  Real.sqrt p.d_k

/-- Lines 39-40: attn = torch.bmm(q, k.transpose(1, 2)) / self.temperature. -/
def sdpaScores (p : ScaledDotProductAttentionP) (q k : Tensor3) : Tensor3 :=
  scalarDiv (bmm q (transpose12 k)) p.temperature

/-- Lines 41-42: attn.masked_fill(mask, -1e9) when a mask is given. -/
def sdpaMasked (s : Tensor3) : Option Mask3 → Tensor3
  | none => s
  | some m => maskedFill s m maskFillValue

/-- Whether the masked_fill on the scores tensor is shape-legal (it always
is when no mask is given). -/
def sdpaMaskOk (s : Tensor3) : Option Mask3 → Bool
  | none => true
  | some m => broadcastOk m s

/-- Line 43: the softmax attention weights, before dropout. -/
def sdpaSoftmax (p : ScaledDotProductAttentionP) (q k : Tensor3)
    (mask : Option Mask3) : Tensor3 :=
  softmax2 (sdpaMasked (sdpaScores p q k) mask)

/-- ScaledDotProductAttention.forward (lines 38-46): scores, optional mask
fill, softmax along dim 2, dropout, then bmm with v; returns the output and
the (post-dropout) attention weights.  none models the runtime error raised
by masked_fill on a broadcast-incompatible mask. -/
def sdpaForward (p : ScaledDotProductAttentionP) (training : Bool)
    (noise : Noise) (q k v : Tensor3) (mask : Option Mask3) :
    Option (Tensor3 × Tensor3) :=
  cond (sdpaMaskOk (sdpaScores p q k) mask)
    (let attn := dropoutForward p.attn_dropout training noise
      (sdpaSoftmax p q k mask)
     some (bmm attn v, attn))
    none

/-- MultiHeadAttention constructor state (__init__, lines 51-66). -/
structure MultiHeadAttentionP where
  n_head : ℕ
  d_model : ℕ
  d_k : ℕ
  d_v : ℕ
  w_qsW : ℕ → ℕ → ℝ
  w_qsB : ℕ → ℝ
  w_ksW : ℕ → ℕ → ℝ
  w_ksB : ℕ → ℝ
  w_vsW : ℕ → ℕ → ℝ
  w_vsB : ℕ → ℝ
  fcW : ℕ → ℕ → ℝ
  fcB : ℕ → ℝ
  layer_norm : LayerNormP
  dropout_p : ℝ

/-- self.w_qs = nn.Linear(d_model, n_head * d_k). -/
def MultiHeadAttentionP.w_qs (p : MultiHeadAttentionP) : LinearP :=
  ⟨p.n_head * p.d_k, p.d_model, p.w_qsW, p.w_qsB⟩

/-- self.w_ks = nn.Linear(d_model, n_head * d_k). -/
def MultiHeadAttentionP.w_ks (p : MultiHeadAttentionP) : LinearP :=
  ⟨p.n_head * p.d_k, p.d_model, p.w_ksW, p.w_ksB⟩

/-- self.w_vs = nn.Linear(d_model, n_head * d_v). -/
def MultiHeadAttentionP.w_vs (p : MultiHeadAttentionP) : LinearP :=
  ⟨p.n_head * p.d_v, p.d_model, p.w_vsW, p.w_vsB⟩

/-- self.fc = nn.Linear(n_head * d_v, d_model). -/
def MultiHeadAttentionP.fc (p : MultiHeadAttentionP) : LinearP :=
  ⟨p.d_model, p.n_head * p.d_v, p.fcW, p.fcB⟩

/-- self.attention = ScaledDotProductAttention(d_k): the attention dropout
rate is the constructor default 0.1. -/
def MultiHeadAttentionP.attention (p : MultiHeadAttentionP) :
    ScaledDotProductAttentionP :=
  ⟨p.d_k, 0.1⟩

/-- Lines 81-84 of MultiHeadAttention.forward: recombine the heads of the
attention output, apply the final projection, dropout, the residual add of
the original query and the layer norm; the attention map rides along. -/
def mhaPost (p : MultiHeadAttentionP) (training : Bool) (noiseOut : Noise)
    (q : Tensor3) (oa : Tensor3 × Tensor3) : Tensor3 × Tensor3 :=
  (layerNormForward p.layer_norm
    (addT (dropoutForward p.dropout_p training noiseOut
      (linearForward p.fc (headMerge oa.1 p.n_head q.dim0))) q), oa.2)

/-- MultiHeadAttention.forward (lines 68-85): project q/k/v, split heads
into the batch axis, delegate to ScaledDotProductAttention with the mask
passed through UNCHANGED (the source has no mask.repeat across heads),
then recombine and post-process.  An error raised inside the attention call
propagates (Option.map). -/
def mhaForward (p : MultiHeadAttentionP) (training : Bool)
    (noiseAttn noiseOut : Noise) (q k v : Tensor3) (mask : Option Mask3) :
    Option (Tensor3 × Tensor3) :=
  (sdpaForward p.attention training noiseAttn
    (headSplit (linearForward p.w_qs q) p.n_head p.d_k)
    (headSplit (linearForward p.w_ks k) p.n_head p.d_k)
    (headSplit (linearForward p.w_vs v) p.n_head p.d_v) mask).map
    (mhaPost p training noiseOut q)

/-- PositionwiseFeedForward constructor state (__init__, lines 90-95). -/
structure PositionwiseFeedForwardP where
  d_in : ℕ
  d_hid : ℕ
  w1W : ℕ → ℕ → ℝ
  w1B : ℕ → ℝ
  w2W : ℕ → ℕ → ℝ
  w2B : ℕ → ℝ
  layer_norm : LayerNormP
  dropout_p : ℝ

/-- self.w_1 = nn.Conv1d(d_in, d_hid, 1). -/
def PositionwiseFeedForwardP.w_1 (p : PositionwiseFeedForwardP) : Conv1dP :=
  ⟨p.d_hid, p.d_in, p.w1W, p.w1B⟩

/-- self.w_2 = nn.Conv1d(d_hid, d_in, 1). -/
def PositionwiseFeedForwardP.w_2 (p : PositionwiseFeedForwardP) : Conv1dP :=
  ⟨p.d_in, p.d_hid, p.w2W, p.w2B⟩

/-- PositionwiseFeedForward.forward (lines 97-104): transpose to channel
layout, conv-relu-conv, transpose back, dropout, residual add, layer norm. -/
def pffForward (p : PositionwiseFeedForwardP) (training : Bool)
    (noise : Noise) (x : Tensor3) : Tensor3 :=
  layerNormForward p.layer_norm
    (addT
      (dropoutForward p.dropout_p training noise
        (transpose12 (conv1dK1 p.w_2 (reluT (conv1dK1 p.w_1 (transpose12 x))))))
      x)

/-- EncoderLayer parameters (lines 109-112). -/
structure EncoderLayerP where
  slf_attn : MultiHeadAttentionP
  pos_ffn : PositionwiseFeedForwardP

/-- One noise draw per dropout site of an EncoderLayer: attention dropout,
multi-head output dropout, feed-forward dropout. -/
abbrev EncNoise := Noise × Noise × Noise

/-- EncoderLayer.forward (lines 114-118): self-attention then feed-forward;
the attention map is passed along. -/
def encoderLayerForward (p : EncoderLayerP) (training : Bool)
    (nt : EncNoise) (q k v : Tensor3) (mask : Option Mask3) :
    Option (Tensor3 × Tensor3) :=
  (mhaForward p.slf_attn training nt.1 nt.2.1 q k v mask).map
    (fun oa => (pffForward p.pos_ffn training nt.2.2 oa.1, oa.2))

/-- TransformerUnit constructor state (lines 122-130). -/
structure TransformerUnitP where
  layer_stack : List EncoderLayerP
  layer_norm : LayerNormP
  dropout_p : ℝ

/-- TransformerUnit.__init__: the layer stack is built from n_layers
independently parameterized EncoderLayers (for _ in range(n_layers)). -/
def mkTransformerUnit (n_layers : ℕ) (mk : ℕ → EncoderLayerP)
    (ln : LayerNormP) (dp : ℝ) : TransformerUnitP :=
  ⟨(List.range n_layers).map mk, ln, dp⟩

/-- The loop of TransformerUnit.forward (lines 133-134): every iteration
calls its layer on the ORIGINAL (query, key, value, mask) and overwrites
enc_output; the accumulator (the previous iteration's output) is never
read.  The accumulator starts as none: if the stack is empty, enc_output is
never bound.  Layer number i uses the i-th noise draw. -/
def tuLoop (tr : Bool) (ns : ℕ → EncNoise) (q k v : Tensor3)
    (mask : Option Mask3) :
    ℕ → List EncoderLayerP → Option Tensor3 → Option Tensor3
  | _, [], acc => acc
  | i, layer :: rest, _ =>
    tuLoop tr ns q k v mask (i + 1) rest
      ((encoderLayerForward layer tr (ns i) q k v mask).map Prod.fst)

/-- TransformerUnit.forward (lines 132-136): run the loop, then apply the
shared final layer norm and return only the sequence tensor.  The
return_attns argument is accepted but never used.  The result is a sum so
that the (never taken) possibility of also returning the attention map is
expressible; the code always returns the plain tensor (Sum.inl).  none
models the UnboundLocalError on an empty stack, or an error raised inside a
layer. -/
def tuForward (p : TransformerUnitP) (training : Bool) (ns : ℕ → EncNoise)
    (q k v : Tensor3) (mask : Option Mask3) (return_attns : Bool) :
    Option (Tensor3 ⊕ Tensor3 × Tensor3) :=
  (tuLoop training ns q k v mask 0 p.layer_stack none).map
    (fun out => Sum.inl (layerNormForward p.layer_norm out))

/-- The output-tensor shape of a TransformerUnit result value. -/
def tuOutDims : Tensor3 ⊕ Tensor3 × Tensor3 → ℕ × ℕ × ℕ
  | Sum.inl t => t.dims
  | Sum.inr (t, _) => t.dims

/-- The attention-weight formula as the spec states it: softmax of
Q·Kᵀ scaled by 1/sqrt(Dk), used to compare the code path against the spec's
formula. -/
def specAttentionWeights (dk : ℕ) (q k : Tensor3) : Tensor3 :=
  softmax2 (scalarDiv (bmm q (transpose12 k)) (Real.sqrt dk))

/-- mask.repeat(n_head, 1, 1): tile the mask across heads so its leading
dimension becomes n_head * B (the expansion the spec describes). -/
def maskRepeatHeads (m : Mask3) (h : ℕ) : Mask3 :=
  ⟨h * m.dim0, m.dim1, m.dim2, fun b i j => m.data (b % m.dim0) i j⟩

/-- The spec's reading of MultiHeadAttention.forward: identical to the code
except that the mask is first expanded across heads to leading dimension
n_head * B before being handed to ScaledDotProductAttention. -/
def mhaForwardHeadExpand (p : MultiHeadAttentionP) (training : Bool)
    (noiseAttn noiseOut : Noise) (q k v : Tensor3) (mask : Option Mask3) :
    Option (Tensor3 × Tensor3) :=
  mhaForward p training noiseAttn noiseOut q k v
    (mask.map (fun m => maskRepeatHeads m p.n_head))

/-! ### Concrete fixtures used by the witness theorems -/

/-- All-zero weight matrix. -/
def zeroW : ℕ → ℕ → ℝ := fun _ _ => 0

/-- All-zero bias vector. -/
def zeroB : ℕ → ℝ := fun _ => 0

/-- A layer-norm parameter set with identity affine map. -/
def lnFix : LayerNormP := ⟨fun _ => 1, fun _ => 0, 1e-5⟩

/-- The noise stream that never zeroes an entry. -/
def noiseOff : Noise := fun _ _ _ => false

/-- One silent noise triple per layer. -/
def encNoiseOff : ℕ → EncNoise := fun _ => (noiseOff, noiseOff, noiseOff)

/-- A single-head multi-head attention with d_model = d_k = d_v = 1 and
zero weights. -/
def mhaFix : MultiHeadAttentionP :=
  ⟨1, 1, 1, 1, zeroW, zeroB, zeroW, zeroB, zeroW, zeroB, zeroW, zeroB,
   lnFix, 0.1⟩

/-- A 1-wide feed-forward with zero weights. -/
def pffFix : PositionwiseFeedForwardP :=
  ⟨1, 1, zeroW, zeroB, zeroW, zeroB, lnFix, 0.1⟩

/-- A second feed-forward differing from pffFix in the first bias. -/
def pffFix2 : PositionwiseFeedForwardP :=
  ⟨1, 1, zeroW, fun _ => 1, zeroW, zeroB, lnFix, 0.1⟩

/-- A minimal encoder layer. -/
def encFix : EncoderLayerP := ⟨mhaFix, pffFix⟩

/-- A second, distinct minimal encoder layer. -/
def encFix2 : EncoderLayerP := ⟨mhaFix, pffFix2⟩

/-- A two-layer transformer unit. -/
def tuFix : TransformerUnitP := ⟨[encFix, encFix2], lnFix, 0.1⟩

/-- The all-ones (1, 1, 1) tensor. -/
def onesT : Tensor3 := ⟨1, 1, 1, fun _ _ _ => 1⟩

/-- An all-ones (1, 2, 1) tensor (two key positions). -/
def kFix : Tensor3 := ⟨1, 2, 1, fun _ _ _ => 1⟩

/-- A single-head scaled dot-product attention with d_k = 1. -/
def sdpaFix : ScaledDotProductAttentionP := ⟨1, 0.1⟩

/-- A (1, 1, 2) mask that suppresses key position 0 only. -/
def maskFixKey0 : Mask3 := ⟨1, 1, 2, fun _ _ j => j == 0⟩

/-- A (2, 1, 4) tensor with distinguishable entries, for the reshape
round-trip witness. -/
def tFix6 : Tensor3 := ⟨2, 1, 4, fun b l y => ((b * 10 + l + y : ℕ) : ℝ)⟩

/-- A two-head multi-head attention with d_model = d_k = d_v = 1. -/
def mhaFixH2 : MultiHeadAttentionP :=
  ⟨2, 1, 1, 1, zeroW, zeroB, zeroW, zeroB, zeroW, zeroB, zeroW, zeroB,
   lnFix, 0.1⟩

/-- An all-ones (2, 1, 1) tensor (batch size 2). -/
def qFixB2 : Tensor3 := ⟨2, 1, 1, fun _ _ _ => 1⟩

/-- An all-true (2, 1, 1) mask (leading dimension = batch size 2). -/
def maskFixB2 : Mask3 := ⟨2, 1, 1, fun _ _ _ => true⟩

/-- An all-true (1, 1, 1) mask: a row whose only key position is masked. -/
def maskAll1 : Mask3 := ⟨1, 1, 1, fun _ _ _ => true⟩

/-! ### Helper lemmas -/

/-- In eval mode dropout is the identity. -/
theorem dropoutForward_eval (p : ℝ) (n : Noise) (t : Tensor3) :
    dropoutForward p false n t = t := rfl

/-- With dropout disabled, ScaledDotProductAttention ignores the noise
stream. -/
theorem sdpaForward_eval_noise (p : ScaledDotProductAttentionP)
    (n n2 : Noise) (q k v : Tensor3) (mask : Option Mask3) :
    sdpaForward p false n q k v mask = sdpaForward p false n2 q k v mask :=
  rfl

/-- With dropout disabled, MultiHeadAttention ignores the noise streams. -/
theorem mhaForward_eval_noise (p : MultiHeadAttentionP)
    (na no na2 no2 : Noise) (q k v : Tensor3) (mask : Option Mask3) :
    mhaForward p false na no q k v mask =
      mhaForward p false na2 no2 q k v mask := rfl

/-- With dropout disabled, PositionwiseFeedForward ignores the noise
stream. -/
theorem pffForward_eval_noise (p : PositionwiseFeedForwardP) (n n2 : Noise)
    (x : Tensor3) : pffForward p false n x = pffForward p false n2 x := rfl

/-- With dropout disabled, EncoderLayer ignores the noise streams. -/
theorem encoderLayerForward_eval_noise (p : EncoderLayerP)
    (nt nt2 : EncNoise) (q k v : Tensor3) (mask : Option Mask3) :
    encoderLayerForward p false nt q k v mask =
      encoderLayerForward p false nt2 q k v mask := rfl

/-- With dropout disabled, the layer loop ignores the noise streams. -/
theorem tuLoop_eval_noise (ns ns2 : ℕ → EncNoise) (q k v : Tensor3)
    (mask : Option Mask3) :
    ∀ (l : List EncoderLayerP) (i : ℕ) (acc : Option Tensor3),
      tuLoop false ns q k v mask i l acc =
        tuLoop false ns2 q k v mask i l acc := by
  intro l
  induction l with
  | nil => intro i acc; rfl
  | cons a t ih =>
    intro i acc
    show tuLoop false ns q k v mask (i + 1) t _ =
      tuLoop false ns2 q k v mask (i + 1) t _
    rw [encoderLayerForward_eval_noise a (ns i) (ns2 i) q k v mask]
    exact ih (i + 1) _

/-- The for loop of TransformerUnit.forward never reads the accumulator:
on a nonempty stack it computes exactly the last layer's output on the
original inputs (with that layer's noise draw). -/
theorem tuLoop_getLast (tr : Bool) (ns : ℕ → EncNoise) (q k v : Tensor3)
    (mask : Option Mask3) :
    ∀ (l : List EncoderLayerP) (last : EncoderLayerP),
      l.getLast? = some last →
      ∀ (i : ℕ) (acc : Option Tensor3),
        tuLoop tr ns q k v mask i l acc =
          (encoderLayerForward last tr (ns (i + (l.length - 1)))
            q k v mask).map Prod.fst := by
  intro l
  induction l with
  | nil => intro last h; simp at h
  | cons a t ih =>
    intro last h i acc
    cases t with
    | nil =>
      simp at h
      subst h
      show (encoderLayerForward a tr (ns i) q k v mask).map Prod.fst =
        (encoderLayerForward a tr (ns (i + (1 - 1))) q k v mask).map
          Prod.fst
      norm_num
    | cons b t2 =>
      rw [List.getLast?_cons_cons] at h
      show tuLoop tr ns q k v mask (i + 1) (b :: t2)
        ((encoderLayerForward a tr (ns i) q k v mask).map Prod.fst) =
        (encoderLayerForward last tr
          (ns (i + ((a :: b :: t2).length - 1))) q k v mask).map Prod.fst
      rw [ih last h (i + 1) _]
      have hidx : (i + 1) + ((b :: t2).length - 1) =
          i + ((a :: b :: t2).length - 1) := by
        simp [List.length_cons]
        omega
      rw [hidx]

/-- A masked attention call with a broadcast-incompatible mask fails. -/
theorem sdpaForward_none_of_not_ok (p : ScaledDotProductAttentionP)
    (tr : Bool) (n : Noise) (q k v : Tensor3) (mask : Option Mask3)
    (h : sdpaMaskOk (sdpaScores p q k) mask = false) :
    sdpaForward p tr n q k v mask = none := by
  unfold sdpaForward
  rw [h]
  rfl

/-- Without a mask an encoder layer always produces a value. -/
theorem encoderLayerForward_none_mask_isSome (p : EncoderLayerP)
    (tr : Bool) (nt : EncNoise) (q k v : Tensor3) :
    (encoderLayerForward p tr nt q k v none).isSome = true := rfl

/-! ### Shape bookkeeping: one lemma per dimension of each operation -/

@[simp] theorem transpose12_dim0 (t : Tensor3) :
    (transpose12 t).dim0 = t.dim0 := rfl

@[simp] theorem transpose12_dim1 (t : Tensor3) :
    (transpose12 t).dim1 = t.dim2 := rfl

@[simp] theorem transpose12_dim2 (t : Tensor3) :
    (transpose12 t).dim2 = t.dim1 := rfl

@[simp] theorem bmm_dim0 (x y : Tensor3) : (bmm x y).dim0 = x.dim0 := rfl

@[simp] theorem bmm_dim1 (x y : Tensor3) : (bmm x y).dim1 = x.dim1 := rfl

@[simp] theorem bmm_dim2 (x y : Tensor3) : (bmm x y).dim2 = y.dim2 := rfl

@[simp] theorem scalarDiv_dim0 (t : Tensor3) (c : ℝ) :
    (scalarDiv t c).dim0 = t.dim0 := rfl

@[simp] theorem scalarDiv_dim1 (t : Tensor3) (c : ℝ) :
    (scalarDiv t c).dim1 = t.dim1 := rfl

@[simp] theorem scalarDiv_dim2 (t : Tensor3) (c : ℝ) :
    (scalarDiv t c).dim2 = t.dim2 := rfl

@[simp] theorem addT_dim0 (x y : Tensor3) : (addT x y).dim0 = x.dim0 := rfl

@[simp] theorem addT_dim1 (x y : Tensor3) : (addT x y).dim1 = x.dim1 := rfl

@[simp] theorem addT_dim2 (x y : Tensor3) : (addT x y).dim2 = x.dim2 := rfl

@[simp] theorem reluT_dim0 (t : Tensor3) : (reluT t).dim0 = t.dim0 := rfl

@[simp] theorem reluT_dim1 (t : Tensor3) : (reluT t).dim1 = t.dim1 := rfl

@[simp] theorem reluT_dim2 (t : Tensor3) : (reluT t).dim2 = t.dim2 := rfl

@[simp] theorem maskedFill_dim0 (t : Tensor3) (m : Mask3) (c : ℝ) :
    (maskedFill t m c).dim0 = t.dim0 := rfl

@[simp] theorem maskedFill_dim1 (t : Tensor3) (m : Mask3) (c : ℝ) :
    (maskedFill t m c).dim1 = t.dim1 := rfl

@[simp] theorem maskedFill_dim2 (t : Tensor3) (m : Mask3) (c : ℝ) :
    (maskedFill t m c).dim2 = t.dim2 := rfl

@[simp] theorem softmax2_dim0 (t : Tensor3) : (softmax2 t).dim0 = t.dim0 :=
  rfl

@[simp] theorem softmax2_dim1 (t : Tensor3) : (softmax2 t).dim1 = t.dim1 :=
  rfl

@[simp] theorem softmax2_dim2 (t : Tensor3) : (softmax2 t).dim2 = t.dim2 :=
  rfl

@[simp] theorem dropoutForward_dim0 (p : ℝ) (tr : Bool) (n : Noise)
    (t : Tensor3) : (dropoutForward p tr n t).dim0 = t.dim0 := rfl

@[simp] theorem dropoutForward_dim1 (p : ℝ) (tr : Bool) (n : Noise)
    (t : Tensor3) : (dropoutForward p tr n t).dim1 = t.dim1 := rfl

@[simp] theorem dropoutForward_dim2 (p : ℝ) (tr : Bool) (n : Noise)
    (t : Tensor3) : (dropoutForward p tr n t).dim2 = t.dim2 := rfl

@[simp] theorem linearForward_dim0 (p : LinearP) (t : Tensor3) :
    (linearForward p t).dim0 = t.dim0 := rfl

@[simp] theorem linearForward_dim1 (p : LinearP) (t : Tensor3) :
    (linearForward p t).dim1 = t.dim1 := rfl

@[simp] theorem linearForward_dim2 (p : LinearP) (t : Tensor3) :
    (linearForward p t).dim2 = p.out_features := rfl

@[simp] theorem conv1dK1_dim0 (p : Conv1dP) (t : Tensor3) :
    (conv1dK1 p t).dim0 = t.dim0 := rfl

@[simp] theorem conv1dK1_dim1 (p : Conv1dP) (t : Tensor3) :
    (conv1dK1 p t).dim1 = p.out_channels := rfl

@[simp] theorem conv1dK1_dim2 (p : Conv1dP) (t : Tensor3) :
    (conv1dK1 p t).dim2 = t.dim2 := rfl

@[simp] theorem layerNormForward_dim0 (p : LayerNormP) (t : Tensor3) :
    (layerNormForward p t).dim0 = t.dim0 := rfl

@[simp] theorem layerNormForward_dim1 (p : LayerNormP) (t : Tensor3) :
    (layerNormForward p t).dim1 = t.dim1 := rfl

@[simp] theorem layerNormForward_dim2 (p : LayerNormP) (t : Tensor3) :
    (layerNormForward p t).dim2 = t.dim2 := rfl

@[simp] theorem headSplit_dim0 (t : Tensor3) (h d : ℕ) :
    (headSplit t h d).dim0 = h * t.dim0 := rfl

@[simp] theorem headSplit_dim1 (t : Tensor3) (h d : ℕ) :
    (headSplit t h d).dim1 = t.dim1 := rfl

@[simp] theorem headSplit_dim2 (t : Tensor3) (h d : ℕ) :
    (headSplit t h d).dim2 = d := rfl

@[simp] theorem headMerge_dim0 (t : Tensor3) (h b : ℕ) :
    (headMerge t h b).dim0 = b := rfl

@[simp] theorem headMerge_dim1 (t : Tensor3) (h b : ℕ) :
    (headMerge t h b).dim1 = t.dim1 := rfl

@[simp] theorem headMerge_dim2 (t : Tensor3) (h b : ℕ) :
    (headMerge t h b).dim2 = h * t.dim2 := rfl

@[simp] theorem w_qs_out_features (p : MultiHeadAttentionP) :
    p.w_qs.out_features = p.n_head * p.d_k := rfl

@[simp] theorem w_ks_out_features (p : MultiHeadAttentionP) :
    p.w_ks.out_features = p.n_head * p.d_k := rfl

@[simp] theorem w_vs_out_features (p : MultiHeadAttentionP) :
    p.w_vs.out_features = p.n_head * p.d_v := rfl

@[simp] theorem fc_out_features (p : MultiHeadAttentionP) :
    p.fc.out_features = p.d_model := rfl

@[simp] theorem w_1_out_channels (p : PositionwiseFeedForwardP) :
    p.w_1.out_channels = p.d_hid := rfl

@[simp] theorem w_2_out_channels (p : PositionwiseFeedForwardP) :
    p.w_2.out_channels = p.d_in := rfl

@[simp] theorem sdpaMasked_none (s : Tensor3) : sdpaMasked s none = s := rfl

@[simp] theorem sdpaMasked_dim0 (s : Tensor3) (mask : Option Mask3) :
    (sdpaMasked s mask).dim0 = s.dim0 := by cases mask <;> rfl

@[simp] theorem sdpaMasked_dim1 (s : Tensor3) (mask : Option Mask3) :
    (sdpaMasked s mask).dim1 = s.dim1 := by cases mask <;> rfl

@[simp] theorem sdpaMasked_dim2 (s : Tensor3) (mask : Option Mask3) :
    (sdpaMasked s mask).dim2 = s.dim2 := by cases mask <;> rfl

/-- Without a mask, ScaledDotProductAttention.forward always produces the
(dropout-processed) softmax weights and their product with v. -/
theorem sdpaForward_none_eq (p : ScaledDotProductAttentionP) (tr : Bool)
    (n : Noise) (q k v : Tensor3) :
    sdpaForward p tr n q k v none =
      some (bmm (dropoutForward p.attn_dropout tr n (sdpaSoftmax p q k none))
          v,
        dropoutForward p.attn_dropout tr n (sdpaSoftmax p q k none)) := rfl

/-- MultiHeadAttention.forward factors as ScaledDotProductAttention on the
head-split projections (with the mask passed through unchanged) followed by
the recombination post-processing. -/
theorem mhaForward_factorization (p : MultiHeadAttentionP) (tr : Bool)
    (na no : Noise) (q k v : Tensor3) (mask : Option Mask3) :
    mhaForward p tr na no q k v mask =
      (sdpaForward p.attention tr na
        (headSplit (linearForward p.w_qs q) p.n_head p.d_k)
        (headSplit (linearForward p.w_ks k) p.n_head p.d_k)
        (headSplit (linearForward p.w_vs v) p.n_head p.d_v) mask).map
        (mhaPost p tr no q) := rfl

/-! ### Claim theorems -/

/-- Claim C1: TransformerUnit.forward feeds every layer the same original
(query, key, value, mask), keeps only the last layer's output, and returns
the shared final layer norm of it — so whenever the stack is nonempty the
result equals the final normalization of the last layer alone applied to
the original inputs. -/
theorem tuForward_eq_norm_of_last_layer (p : TransformerUnitP) (tr : Bool)
    (ns : ℕ → EncNoise) (q k v : Tensor3) (mask : Option Mask3) (ra : Bool)
    (last : EncoderLayerP) (h : p.layer_stack.getLast? = some last) :
    tuForward p tr ns q k v mask ra =
      (encoderLayerForward last tr (ns (p.layer_stack.length - 1))
        q k v mask).map
        (fun o => Sum.inl (layerNormForward p.layer_norm o.1)) := by
  unfold tuForward
  rw [tuLoop_getLast tr ns q k v mask p.layer_stack last h 0 none]
  rw [Option.map_map]
  norm_num
  rfl

/-- Witness for C1 at a concrete two-layer unit. -/
theorem tuForward_eq_norm_of_last_layer_witness :
    tuFix.layer_stack.getLast? = some encFix2 ∧
    tuForward tuFix false encNoiseOff onesT onesT onesT none false =
      (encoderLayerForward encFix2 false (encNoiseOff 1) onesT onesT onesT
        none).map
        (fun o => Sum.inl (layerNormForward tuFix.layer_norm o.1)) :=
  ⟨rfl, tuForward_eq_norm_of_last_layer tuFix false encNoiseOff onesT onesT
    onesT none false encFix2 rfl⟩

/-- Claim C9: with dropout disabled (eval mode) and fixed weights, two
forward calls of TransformerUnit — and of each sub-component — on identical
inputs give identical outputs, whatever random noise the two runs would
have drawn. -/
theorem forwards_deterministic_dropout_disabled (pt : TransformerUnitP)
    (pe : EncoderLayerP) (pm : MultiHeadAttentionP)
    (pf : PositionwiseFeedForwardP) (ps : ScaledDotProductAttentionP)
    (ns ns2 : ℕ → EncNoise) (nt nt2 : EncNoise)
    (na no na2 no2 n1 n2 n3 n4 : Noise) (q k v x : Tensor3)
    (mask : Option Mask3) (ra : Bool) :
    tuForward pt false ns q k v mask ra =
      tuForward pt false ns2 q k v mask ra ∧
    encoderLayerForward pe false nt q k v mask =
      encoderLayerForward pe false nt2 q k v mask ∧
    mhaForward pm false na no q k v mask =
      mhaForward pm false na2 no2 q k v mask ∧
    pffForward pf false n1 x = pffForward pf false n2 x ∧
    sdpaForward ps false n3 q k v mask =
      sdpaForward ps false n4 q k v mask := by
  refine ⟨?_, encoderLayerForward_eval_noise pe nt nt2 q k v mask,
    mhaForward_eval_noise pm na no na2 no2 q k v mask,
    pffForward_eval_noise pf n1 n2 x,
    sdpaForward_eval_noise ps n3 n4 q k v mask⟩
  unfold tuForward
  rw [tuLoop_eval_noise ns ns2 q k v mask pt.layer_stack 0 none]

/-- Claim C10: TransformerUnit.forward only succeeds when the unit was
built with n_layers >= 1.  With an empty layer stack the loop body never
runs, enc_output stays unbound, and the call fails; with at least one layer
(and no mask) the error branch is unreachable. -/
theorem tuForward_needs_nonempty_stack (n : ℕ) (mk : ℕ → EncoderLayerP)
    (ln : LayerNormP) (dp : ℝ) (tr : Bool) (ns : ℕ → EncNoise)
    (q k v : Tensor3) (ra : Bool) :
    tuForward (mkTransformerUnit 0 mk ln dp) tr ns q k v none ra = none ∧
    (0 < n →
      tuForward (mkTransformerUnit n mk ln dp) tr ns q k v none ra ≠
        none) := by
  constructor
  · rfl
  · intro hn
    have hne : ((List.range n).map mk) ≠ [] := by
      simp [List.range_eq_nil]
      omega
    obtain ⟨last, hlast⟩ : ∃ last,
        ((List.range n).map mk).getLast? = some last := by
      cases hg : ((List.range n).map mk).getLast? with
      | some l => exact ⟨l, rfl⟩
      | none => exact absurd (List.getLast?_eq_none_iff.mp hg) hne
    unfold tuForward mkTransformerUnit
    rw [tuLoop_getLast tr ns q k v none _ last hlast 0 none]
    obtain ⟨r, hr⟩ := Option.isSome_iff_exists.mp
      (encoderLayerForward_none_mask_isSome last tr
        (ns (0 + (((List.range n).map mk).length - 1))) q k v)
    rw [hr]
    simp

/-- Witness for C10: a one-layer unit succeeds, a zero-layer unit fails. -/
theorem tuForward_needs_nonempty_stack_witness :
    tuForward (mkTransformerUnit 0 (fun _ => encFix) lnFix 0.1) false
      encNoiseOff onesT onesT onesT none false = none ∧
    tuForward (mkTransformerUnit 1 (fun _ => encFix) lnFix 0.1) false
      encNoiseOff onesT onesT onesT none false ≠ none :=
  ⟨(tuForward_needs_nonempty_stack 1 (fun _ => encFix) lnFix 0.1 false
      encNoiseOff onesT onesT onesT false).1,
   (tuForward_needs_nonempty_stack 1 (fun _ => encFix) lnFix 0.1 false
      encNoiseOff onesT onesT onesT false).2 (by decide)⟩

/-- Claim C8 (amended): TransformerUnit.forward ignores return_attns — the
result is the same as with return_attns = false, and whenever it returns a
value that value is the bare output tensor (never a pair with the attention
map). -/
theorem tuForward_ignores_return_attns (p : TransformerUnitP) (tr : Bool)
    (ns : ℕ → EncNoise) (q k v : Tensor3) (mask : Option Mask3)
    (ra : Bool) :
    tuForward p tr ns q k v mask ra =
      tuForward p tr ns q k v mask false ∧
    (tuForward p tr ns q k v mask ra).map Sum.isLeft ≠ some false := by
  refine ⟨rfl, ?_⟩
  unfold tuForward
  cases tuLoop tr ns q k v mask 0 p.layer_stack none with
  | none => simp
  | some t => simp

/-- Counterexample for C8 as stated: at a concrete invocation with
return_attns = true the returned value is identical to the
return_attns = false result and is a bare tensor (Sum.inl), not an output
accompanied by the final layer's attention weights. -/
theorem tuForward_return_attns_true_gives_bare_tensor :
    tuForward tuFix false encNoiseOff onesT onesT onesT none true =
      tuForward tuFix false encNoiseOff onesT onesT onesT none false ∧
    (tuForward tuFix false encNoiseOff onesT onesT onesT none true).map
      Sum.isLeft = some true :=
  ⟨rfl, rfl⟩

/-- Claim C2: with dropout disabled the attention-weight tensor produced by
ScaledDotProductAttention is exactly the softmax output, and for every
(batch*head, query position) row it sums to 1 along the key axis. -/
theorem sdpa_attention_rows_sum_to_one (p : ScaledDotProductAttentionP)
    (noise : Noise) (q k v : Tensor3) (mask : Option Mask3) (b i : ℕ)
    (hk : 0 < k.dim1)
    (hok : sdpaMaskOk (sdpaScores p q k) mask = true) :
    sdpaForward p false noise q k v mask =
      some (bmm (sdpaSoftmax p q k mask) v, sdpaSoftmax p q k mask) ∧
    ∑ j ∈ Finset.range k.dim1, (sdpaSoftmax p q k mask).data b i j = 1 := by
  constructor
  · unfold sdpaForward
    rw [hok]
    rfl
  · have hdim : (sdpaMasked (sdpaScores p q k) mask).dim2 = k.dim1 := by
      cases mask <;> rfl
    show ∑ j ∈ Finset.range k.dim1,
        Real.exp ((sdpaMasked (sdpaScores p q k) mask).data b i j) /
          ∑ l ∈ Finset.range (sdpaMasked (sdpaScores p q k) mask).dim2,
            Real.exp ((sdpaMasked (sdpaScores p q k) mask).data b i l) = 1
    rw [hdim, ← Finset.sum_div]
    exact div_self (ne_of_gt (Finset.sum_pos
      (fun l _ => Real.exp_pos _) ⟨0, Finset.mem_range.mpr hk⟩))

/-- Witness for C2 at a concrete no-mask input with two key positions. -/
theorem sdpa_attention_rows_sum_to_one_witness :
    0 < kFix.dim1 ∧
    (sdpaForward sdpaFix false noiseOff onesT kFix kFix none =
      some (bmm (sdpaSoftmax sdpaFix onesT kFix none) kFix,
        sdpaSoftmax sdpaFix onesT kFix none) ∧
    ∑ j ∈ Finset.range kFix.dim1,
      (sdpaSoftmax sdpaFix onesT kFix none).data 0 0 j = 1) :=
  ⟨by decide, sdpa_attention_rows_sum_to_one sdpaFix noiseOff onesT kFix
    kFix none 0 0 (by decide) rfl⟩

/-- Claim C3: a position marked true in the mask has its score replaced by
-1e9 before the softmax, independently of the raw score there; its softmax
weight is therefore bounded by exp(-1e9 - c) as soon as some key position
of the row carries a masked score of at least c — vanishingly small for any
realistic score level c. -/
theorem sdpa_masked_position_suppressed (p : ScaledDotProductAttentionP)
    (q k : Tensor3) (m : Mask3) (b i j j0 : ℕ) (c : ℝ)
    (hm : m.data (b % m.dim0) i j = true) (hj0 : j0 < k.dim1)
    (hc : c ≤ (sdpaMasked (sdpaScores p q k) (some m)).data b i j0) :
    (sdpaMasked (sdpaScores p q k) (some m)).data b i j = maskFillValue ∧
    (sdpaSoftmax p q k (some m)).data b i j ≤
      Real.exp (maskFillValue - c) := by
  have h1 : (sdpaMasked (sdpaScores p q k) (some m)).data b i j =
      maskFillValue := by
    show cond (m.data (b % m.dim0) i j) maskFillValue
      ((sdpaScores p q k).data b i j) = maskFillValue
    rw [hm]
    rfl
  refine ⟨h1, ?_⟩
  have hden : Real.exp c ≤ ∑ l ∈ Finset.range k.dim1,
      Real.exp ((sdpaMasked (sdpaScores p q k) (some m)).data b i l) :=
    le_trans (Real.exp_le_exp.mpr hc)
      (Finset.single_le_sum (fun l _ => le_of_lt (Real.exp_pos _))
        (Finset.mem_range.mpr hj0))
  show Real.exp ((sdpaMasked (sdpaScores p q k) (some m)).data b i j) /
      ∑ l ∈ Finset.range (sdpaMasked (sdpaScores p q k) (some m)).dim2,
        Real.exp ((sdpaMasked (sdpaScores p q k) (some m)).data b i l) ≤
      Real.exp (maskFillValue - c)
  have hdim : (sdpaMasked (sdpaScores p q k) (some m)).dim2 = k.dim1 := rfl
  rw [hdim, h1, Real.exp_sub]
  exact div_le_div_of_nonneg_left (le_of_lt (Real.exp_pos _))
    (Real.exp_pos _) hden

/-- Witness for C3: key position 0 is masked, position 1 carries a
nonnegative scaled score. -/
theorem sdpa_masked_position_suppressed_witness :
    maskFixKey0.data (0 % maskFixKey0.dim0) 0 0 = true ∧
    1 < kFix.dim1 ∧
    (0 : ℝ) ≤ (sdpaMasked (sdpaScores sdpaFix onesT kFix)
      (some maskFixKey0)).data 0 0 1 ∧
    ((sdpaMasked (sdpaScores sdpaFix onesT kFix)
        (some maskFixKey0)).data 0 0 0 = maskFillValue ∧
      (sdpaSoftmax sdpaFix onesT kFix (some maskFixKey0)).data 0 0 0 ≤
        Real.exp (maskFillValue - 0)) := by
  have hc : (0 : ℝ) ≤ (sdpaMasked (sdpaScores sdpaFix onesT kFix)
      (some maskFixKey0)).data 0 0 1 := by
    show (0 : ℝ) ≤ cond (maskFixKey0.data (0 % maskFixKey0.dim0) 0 1)
      maskFillValue ((sdpaScores sdpaFix onesT kFix).data 0 0 1)
    show (0 : ℝ) ≤ (sdpaScores sdpaFix onesT kFix).data 0 0 1
    show (0 : ℝ) ≤ (∑ l ∈ Finset.range onesT.dim2,
      onesT.data 0 0 l * (transpose12 kFix).data 0 l 1) /
      sdpaFix.temperature
    have ht : (0 : ℝ) ≤ sdpaFix.temperature := Real.sqrt_nonneg _
    refine div_nonneg ?_ ht
    refine Finset.sum_nonneg fun l _ => ?_
    show (0 : ℝ) ≤ 1 * 1
    norm_num
  exact ⟨rfl, by decide, hc, sdpa_masked_position_suppressed sdpaFix onesT
    kFix maskFixKey0 0 0 0 1 0 rfl (by decide) hc⟩

/-- Counterexample for C3 as stated: when the only key position of a row
is itself masked, the softmax row is constant and the masked position's
attention weight equals 1, not approximately 0 — so a masked position's
weight does not vanish on every input. -/
theorem sdpa_masked_weight_not_vanishing_cex :
    maskAll1.data (0 % maskAll1.dim0) 0 0 = true ∧
    (sdpaSoftmax sdpaFix onesT onesT (some maskAll1)).data 0 0 0 = 1 := by
  refine ⟨rfl, ?_⟩
  show Real.exp ((sdpaMasked (sdpaScores sdpaFix onesT onesT)
      (some maskAll1)).data 0 0 0) /
    ∑ l ∈ Finset.range (sdpaMasked (sdpaScores sdpaFix onesT onesT)
      (some maskAll1)).dim2,
      Real.exp ((sdpaMasked (sdpaScores sdpaFix onesT onesT)
        (some maskAll1)).data 0 0 l) = 1
  rw [show (sdpaMasked (sdpaScores sdpaFix onesT onesT)
    (some maskAll1)).dim2 = 1 from rfl]
  rw [Finset.sum_range_one]
  exact div_self (Real.exp_ne_zero _)

/-- Claim C4: with dropout disabled and no mask,
ScaledDotProductAttention.forward returns
softmax(Q·Kᵀ / sqrt(Dk))·V of shape (B, Lq, Dv) together with the very
attention-weight tensor that was multiplied with V. -/
theorem sdpaForward_matches_spec_formula (p : ScaledDotProductAttentionP)
    (noise : Noise) (q k v : Tensor3) :
    sdpaForward p false noise q k v none =
      some (bmm (specAttentionWeights p.d_k q k) v,
        specAttentionWeights p.d_k q k) ∧
    (bmm (specAttentionWeights p.d_k q k) v).dims =
      (q.dim0, q.dim1, v.dim2) :=
  ⟨rfl, rfl⟩

/-- Claim C5: on a (B, L, d_model) input, PositionwiseFeedForward and
MultiHeadAttention return tensors of exactly the input/query shape, and
TransformerUnit's output has the shape of its query. -/
theorem module_forwards_preserve_shape (pf : PositionwiseFeedForwardP)
    (pm : MultiHeadAttentionP) (pt : TransformerUnitP) (tr : Bool)
    (n na no : Noise) (ns : ℕ → EncNoise) (x q k v q2 k2 v2 : Tensor3)
    (ra : Bool) (last : EncoderLayerP)
    (hx : pf.d_in = x.dim2) (hq : pm.d_model = q.dim2)
    (hlast : pt.layer_stack.getLast? = some last)
    (hd : last.pos_ffn.d_in = q2.dim2) :
    (pffForward pf tr n x).dims = x.dims ∧
    (mhaForward pm tr na no q k v none).map (fun r => r.1.dims) =
      some q.dims ∧
    (tuForward pt tr ns q2 k2 v2 none ra).map tuOutDims = some q2.dims := by
  refine ⟨?_, ?_, ?_⟩
  · simp [pffForward, Tensor3.dims, hx]
  · rw [mhaForward_factorization, sdpaForward_none_eq]
    simp [mhaPost, sdpaSoftmax, sdpaScores, Tensor3.dims, hq]
  · unfold tuForward
    rw [tuLoop_getLast tr ns q2 k2 v2 none pt.layer_stack last hlast 0 none]
    simp [encoderLayerForward, mhaForward_factorization, sdpaForward_none_eq,
      mhaPost, pffForward, sdpaSoftmax, sdpaScores, tuOutDims, Tensor3.dims,
      hd]

/-- Witness for C5 at concrete 1-dimensional modules. -/
theorem module_forwards_preserve_shape_witness :
    pffFix.d_in = onesT.dim2 ∧
    mhaFix.d_model = onesT.dim2 ∧
    tuFix.layer_stack.getLast? = some encFix2 ∧
    encFix2.pos_ffn.d_in = onesT.dim2 ∧
    ((pffForward pffFix false noiseOff onesT).dims = onesT.dims ∧
      (mhaForward mhaFix false noiseOff noiseOff onesT onesT onesT
        none).map (fun r => r.1.dims) = some onesT.dims ∧
      (tuForward tuFix false encNoiseOff onesT onesT onesT none
        false).map tuOutDims = some onesT.dims) :=
  ⟨rfl, rfl, rfl, rfl, module_forwards_preserve_shape pffFix mhaFix tuFix
    false noiseOff noiseOff noiseOff encNoiseOff onesT onesT onesT onesT
    onesT onesT onesT false encFix2 rfl rfl rfl rfl⟩

/-- Claim C6: the head split of MultiHeadAttention.forward (view to
(B, L, H, d), permute(2,0,1,3), flatten to (H*B, L, d)) followed by the
inverse recombination (view to (H, B, L, d), permute(1,2,0,3), flatten the
last two axes) is a round trip: it reconstructs a (B, L, H*d) tensor whose
feature entries are exactly the per-head entries in head order. -/
theorem headSplit_headMerge_roundtrip (t : Tensor3) (h d b l y : ℕ)
    (hb : b < t.dim0) :
    (headMerge (headSplit t h d) h t.dim0).dims =
      (t.dim0, t.dim1, h * d) ∧
    (headMerge (headSplit t h d) h t.dim0).data b l y = t.data b l y := by
  refine ⟨rfl, ?_⟩
  show t.data ((y / d * t.dim0 + b) % t.dim0) l
    ((y / d * t.dim0 + b) / t.dim0 * d + y % d) = t.data b l y
  have hB : 0 < t.dim0 := by omega
  have hmod : (y / d * t.dim0 + b) % t.dim0 = b := by
    rw [Nat.mul_comm (y / d) t.dim0, Nat.mul_add_mod, Nat.mod_eq_of_lt hb]
  have hdiv : (y / d * t.dim0 + b) / t.dim0 = y / d := by
    rw [Nat.mul_comm (y / d) t.dim0, Nat.mul_add_div hB,
      Nat.div_eq_of_lt hb, Nat.add_zero]
  rw [hmod, hdiv]
  have hy : y / d * d + y % d = y := by
    rw [Nat.mul_comm]
    exact Nat.div_add_mod y d
  rw [hy]

/-- Witness for C6 on a concrete (2, 1, 4) tensor split into 2 heads of
width 2. -/
theorem headSplit_headMerge_roundtrip_witness :
    1 < tFix6.dim0 ∧
    ((headMerge (headSplit tFix6 2 2) 2 tFix6.dim0).dims =
      (tFix6.dim0, tFix6.dim1, 2 * 2) ∧
    (headMerge (headSplit tFix6 2 2) 2 tFix6.dim0).data 1 0 3 =
      tFix6.data 1 0 3) :=
  ⟨by decide, headSplit_headMerge_roundtrip tFix6 2 2 1 0 3 (by decide)⟩

/-- Claim C7 (amended): MultiHeadAttention does NOT expand the mask across
heads — it hands the mask to ScaledDotProductAttention unchanged, so a
(B, Lq, Lk) mask with n_head >= 2 and B >= 2 is broadcast-incompatible with
the (n_head*B, Lq, Lk) scores and the forward call fails. -/
theorem mhaForward_fails_on_unexpanded_mask (p : MultiHeadAttentionP)
    (tr : Bool) (na no : Noise) (q k v : Tensor3) (m : Mask3)
    (h2 : 2 ≤ p.n_head) (hB : 2 ≤ q.dim0) (hm : m.dim0 = q.dim0) :
    mhaForward p tr na no q k v (some m) = none := by
  have hok : sdpaMaskOk (sdpaScores p.attention
      (headSplit (linearForward p.w_qs q) p.n_head p.d_k)
      (headSplit (linearForward p.w_ks k) p.n_head p.d_k)) (some m) =
      false := by
    show (((m.dim0 == 1 || m.dim0 == p.n_head * q.dim0) &&
        (m.dim1 == (sdpaScores p.attention
          (headSplit (linearForward p.w_qs q) p.n_head p.d_k)
          (headSplit (linearForward p.w_ks k) p.n_head p.d_k)).dim1)) &&
        (m.dim2 == (sdpaScores p.attention
          (headSplit (linearForward p.w_qs q) p.n_head p.d_k)
          (headSplit (linearForward p.w_ks k) p.n_head p.d_k)).dim2)) =
      false
    have hmul : 2 * q.dim0 ≤ p.n_head * q.dim0 :=
      Nat.mul_le_mul_right q.dim0 h2
    have hone : (m.dim0 == 1) = false := by
      rw [hm]
      simp only [beq_eq_false_iff_ne, ne_eq]
      omega
    have hbig : (m.dim0 == p.n_head * q.dim0) = false := by
      rw [hm]
      simp only [beq_eq_false_iff_ne, ne_eq]
      intro hEq
      rw [← hEq] at hmul
      omega
    rw [hone, hbig]
    rfl
  unfold mhaForward
  rw [sdpaForward_none_of_not_ok _ _ _ _ _ _ _ hok]
  rfl

/-- Witness for C7's amended statement at a concrete 2-head, batch-2
input. -/
theorem mhaForward_fails_on_unexpanded_mask_witness :
    2 ≤ mhaFixH2.n_head ∧ 2 ≤ qFixB2.dim0 ∧
    maskFixB2.dim0 = qFixB2.dim0 ∧
    mhaForward mhaFixH2 true noiseOff noiseOff qFixB2 qFixB2 qFixB2
      (some maskFixB2) = none :=
  ⟨by decide, by decide, rfl, mhaForward_fails_on_unexpanded_mask mhaFixH2
    true noiseOff noiseOff qFixB2 qFixB2 qFixB2 maskFixB2 (by decide)
    (by decide) rfl⟩

/-- Counterexample for C7 as stated: at a concrete 2-head, batch-2 input
with a (B, Lq, Lk) mask, the code's forward fails (mask applied without
head expansion and broadcast-incompatible), while the spec's reading —
repeat the mask to (n_head*B, Lq, Lk) first — would have produced a
value. -/
theorem mhaForward_unexpanded_mask_cex :
    mhaForward mhaFixH2 false noiseOff noiseOff qFixB2 qFixB2 qFixB2
      (some maskFixB2) = none ∧
    (mhaForwardHeadExpand mhaFixH2 false noiseOff noiseOff qFixB2 qFixB2
      qFixB2 (some maskFixB2)).isSome = true :=
  ⟨rfl, rfl⟩

end
